import Mathlib

/-!
Shallow embedding of the transaction lifecycle of the Kenya fiat-to-crypto
gateway (Express app in src/unnamed/part_000, Sequelize model in
src/models/transaction.js, migration in src/migrations/).

The three route handlers — POST /api/transactions, GET /api/transactions/:id,
POST /api/webhook/moonpay — are modelled as pure functions over an explicit
database state.  The outcome of the single outbound HTTP call a handler makes
(axios.post / axios.get to the MoonPay API) is passed in as an `Except`
parameter: `.ok resp` models a 2xx response with the given body, `.error e`
models a thrown axios error (non-2xx, network failure or timeout), which the
surrounding try/catch converts into a 500 response.  Each handler also returns
the trace of database-create and processor-call events it performed, in order,
so that claims about how many calls happen and in which order are statable.
-/

namespace MoonpayGateway

/-- User row (the `User` model): identity fields used to populate the
MoonPay customer object. -/
structure UserRec where
  id : Nat
  firstName : String
  lastName : String
  email : String
  phone : String
  idNumber : String
deriving Repr, DecidableEq

/-- Transaction row, mirroring the columns of the `Transactions` table
(migration 20250704103152): every attribute column is nullable, only the
auto-increment primary key is not. -/
structure TxRecord where
  id : Nat
  userId : Option Nat
  amount : Option Int
  currency : Option String
  cryptoAmount : Option Int
  cryptoCurrency : Option String
  status : Option String
  paymentMethod : Option String
  moonpayTransactionId : Option String
deriving Repr, DecidableEq

/-- The database: the Users and Transactions tables plus the auto-increment
counter for the next transaction primary key. -/
structure DB where
  users : List UserRec
  txs : List TxRecord
  nextTxId : Nat
deriving Repr, DecidableEq

/-- Fields passed to `Transaction.create`.  All attribute columns are
nullable in the model, so every field is optional here. -/
structure TxCreateFields where
  userId : Option Nat
  amount : Option Int
  currency : Option String
  cryptoAmount : Option Int
  cryptoCurrency : Option String
  status : Option String
  paymentMethod : Option String
  moonpayTransactionId : Option String
deriving Repr, DecidableEq

/-- Sequelize validation failure (`SequelizeValidationError`), raised by
`Model.create` when a declared constraint or validator rejects a value. -/
inductive ValidationError where
  | notNullViolation (column : String)
deriving Repr, DecidableEq

/-- The attribute columns declared in `Transaction.init`
(src/models/transaction.js). -/
def txAttributeColumns : List String :=
  ["userId", "amount", "currency", "cryptoAmount", "cryptoCurrency",
   "status", "paymentMethod", "moonpayTransactionId"]

/-- Whether a column of the Transaction model admits NULL.  Neither
`Transaction.init` nor the migration sets `allowNull: false` or any
validator on any attribute column, so every one of them is nullable. -/
def txAllowNull (_column : String) : Bool :=
  true

/-- Whether a create-fields value supplies the given column. -/
def fieldPresent (f : TxCreateFields) : String → Bool
  | "userId" => f.userId.isSome
  | "amount" => f.amount.isSome
  | "currency" => f.currency.isSome
  | "cryptoAmount" => f.cryptoAmount.isSome
  | "cryptoCurrency" => f.cryptoCurrency.isSome
  | "status" => f.status.isSome
  | "paymentMethod" => f.paymentMethod.isSome
  | "moonpayTransactionId" => f.moonpayTransactionId.isSome
  | _ => false

/-- `Transaction.create(fields)`: Sequelize checks each declared column's
constraints (here: only the built-in not-null check, which no column
enables) and then inserts the row, generating the primary key.  Absent
fields become NULL in the stored row. -/
def transactionCreate (f : TxCreateFields) (newId : Nat) :
    Except ValidationError TxRecord :=
  match txAttributeColumns.find? (fun c => !txAllowNull c && !fieldPresent f c) with
  | some c => Except.error (ValidationError.notNullViolation c)
  | none => Except.ok
      { id := newId
        userId := f.userId
        amount := f.amount
        currency := f.currency
        cryptoAmount := f.cryptoAmount
        cryptoCurrency := f.cryptoCurrency
        status := f.status
        paymentMethod := f.paymentMethod
        moonpayTransactionId := f.moonpayTransactionId }

/-- `User.findByPk(userId)`. -/
def findUser (db : DB) (uid : Nat) : Option UserRec :=
  db.users.find? (fun u => u.id == uid)

/-- `Transaction.findByPk(id)`. -/
def findTx (db : DB) (i : Nat) : Option TxRecord :=
  db.txs.find? (fun t => t.id == i)

/-- `Transaction.findOne({ where: { moonpayTransactionId: e } })`. -/
def findTxByExt (db : DB) (e : String) : Option TxRecord :=
  db.txs.find? (fun t => t.moonpayTransactionId == some e)

/-- `instance.update(fields)`: rewrite the row whose primary key is `i`
by `f`, leaving every other row untouched. -/
def setTx (txs : List TxRecord) (i : Nat) (f : TxRecord → TxRecord) :
    List TxRecord :=
  txs.map (fun r => if r.id == i then f r else r)

/-- Caller-supplied card details (`cardDetails` in the request body). -/
structure CardDetails where
  cardNumber : String
  expiryMonth : String
  expiryYear : String
  cvv : String
  cardholderName : String
deriving Repr, DecidableEq

/-- Body of POST /api/transactions.  `userDetails` only contributes its
`walletAddress` field, inlined here. -/
structure CreateTxRequest where
  userId : Nat
  amount : Int
  currency : String
  cryptoCurrency : String
  paymentMethod : String
  cardDetails : Option CardDetails
  walletAddress : String
deriving Repr, DecidableEq

/-- The `customer` sub-object of the MoonPay payload. -/
structure CustomerInfo where
  firstName : String
  lastName : String
  email : String
  phoneNumber : String
  externalCustomerId : String
deriving Repr, DecidableEq

/-- The `card` sub-object of the MoonPay payload. -/
structure CardInfo where
  number : String
  expirationMonth : String
  expirationYear : String
  cvc : String
  cardholderName : String
deriving Repr, DecidableEq

/-- The body POSTed to MoonPay's /v1/transactions (`moonpayPayload`). -/
structure MoonpayPayload where
  walletAddress : String
  currencyCode : String
  baseCurrencyAmount : Int
  baseCurrencyCode : String
  externalTransactionId : String
  customer : CustomerInfo
  paymentMethod : String
  card : Option CardInfo
deriving Repr, DecidableEq

/-- Body of a successful MoonPay transaction-creation response
(`moonpayResponse.data`). -/
structure MoonpayCreateResp where
  id : String
  status : String
  redirectUrl : String
deriving Repr, DecidableEq

/-- Body of a successful MoonPay transaction-lookup response. -/
structure MoonpayFetchResp where
  status : String
  cryptoAmount : Int
deriving Repr, DecidableEq

/-- Side effects a handler performs, in order: a `Transaction.create`
insert, the outbound POST creating the remote transaction, the outbound
GET looking one up, and an `instance.update` on the row with the given
primary key. -/
inductive Event where
  | dbCreate (t : TxRecord)
  | procCreateCall (p : MoonpayPayload)
  | procFetchCall (extId : String)
  | dbUpdate (i : Nat)
deriving Repr, DecidableEq

/-- Whether an event is a local `Transaction.create`. -/
def Event.isDbCreate : Event → Bool
  | .dbCreate _ => true
  | _ => false

/-- Whether an event is an outbound MoonPay transaction-lookup call. -/
def Event.isProcFetch : Event → Bool
  | .procFetchCall _ => true
  | _ => false

/-- Result of a handler run: the HTTP response, the database afterwards,
and the trace of events performed. -/
structure Outcome (ρ : Type) where
  res : ρ
  db : DB
  events : List Event
deriving Repr, DecidableEq

/-- Responses of POST /api/transactions: 404 `{error: 'User not found'}`,
200 `{transaction, moonpayUrl}`, or 500 `{error: 'Transaction failed',
details}`. -/
inductive CreateResult where
  | userNotFound (error : String)
  | success (transaction : TxRecord) (moonpayUrl : String)
  | failure (error : String) (details : String)
deriving Repr, DecidableEq

/-- Responses of GET /api/transactions/:id: 404, 200 with the (possibly
reconciled) record, or 500. -/
inductive FetchResult where
  | notFound (error : String)
  | success (transaction : TxRecord)
  | failure (error : String)
deriving Repr, DecidableEq

/-- Responses of POST /api/webhook/moonpay: 200 or 500, each with a plain
text body. -/
inductive WebhookResult where
  | ok (body : String)
  | error (body : String)
deriving Repr, DecidableEq

/-- `data` object of a MoonPay webhook payload. -/
structure WebhookData where
  id : String
  status : String
  cryptoAmount : Int
deriving Repr, DecidableEq

/-- Body of POST /api/webhook/moonpay; `data := none` models a JSON body
with no `data` object (so `data.id` throws a TypeError). -/
structure WebhookBody where
  data : Option WebhookData
deriving Repr, DecidableEq

/-- The fields the create handler passes to `Transaction.create`
(src/unnamed/part_000 lines 168-175): the request's fields plus a literal
`pending` status; `cryptoAmount` and `moonpayTransactionId` are not
supplied. -/
def createFieldsOf (req : CreateTxRequest) : TxCreateFields :=
  { userId := some req.userId
    amount := some req.amount
    currency := some req.currency
    cryptoAmount := none
    cryptoCurrency := some req.cryptoCurrency
    status := some "pending"
    paymentMethod := some req.paymentMethod
    moonpayTransactionId := none }

/-- The row `Transaction.create` inserts for a create request: the request
fields with status `pending`, a NULL crypto amount and a NULL MoonPay id. -/
def pendingTx (req : CreateTxRequest) (i : Nat) : TxRecord :=
  { id := i
    userId := some req.userId
    amount := some req.amount
    currency := some req.currency
    cryptoAmount := none
    cryptoCurrency := some req.cryptoCurrency
    status := some "pending"
    paymentMethod := some req.paymentMethod
    moonpayTransactionId := none }

/-- Construction of `moonpayPayload` (src/unnamed/part_000 lines 177-205):
the base payload always carries the wallet address, crypto currency, fiat
amount and currency, the stringified local transaction id and the user's
profile; when `paymentMethod === 'card_payment' && cardDetails` the payment
method is rewritten to `credit_debit_card` and a `card` sub-object is added
verbatim from the caller's card details, otherwise the payment method is
passed through and no `card` key exists. -/
def buildMoonpayPayload (req : CreateTxRequest) (user : UserRec)
    (txId : Nat) : MoonpayPayload :=
  let base : MoonpayPayload :=
    { walletAddress := req.walletAddress
      currencyCode := req.cryptoCurrency
      baseCurrencyAmount := req.amount
      baseCurrencyCode := req.currency
      externalTransactionId := toString txId
      customer :=
        { firstName := user.firstName
          lastName := user.lastName
          email := user.email
          phoneNumber := user.phone
          externalCustomerId := toString user.id }
      paymentMethod := req.paymentMethod
      card := none }
  match req.cardDetails with
  | some c =>
      if req.paymentMethod = "card_payment" then
        { base with
            paymentMethod := "credit_debit_card"
            card := some
              { number := c.cardNumber
                expirationMonth := c.expiryMonth
                expirationYear := c.expiryYear
                cvc := c.cvv
                cardholderName := c.cardholderName } }
      else base
  | none => base

/-- POST /api/transactions (src/unnamed/part_000 lines 157-233): validate
the user exists (404 otherwise), insert a `pending` row, build the MoonPay
payload and POST it; on success merge the returned id and status into the
row and answer 200 with the merged row and redirect URL; on any thrown
error answer 500, leaving the already-inserted row as it is. -/
def createTransaction (req : CreateTxRequest) (db : DB)
    (proc : Except String MoonpayCreateResp) : Outcome CreateResult :=
  match findUser db req.userId with
  | none => ⟨.userNotFound "User not found", db, []⟩
  | some user =>
    match transactionCreate (createFieldsOf req) db.nextTxId with
    | .error e =>
        ⟨.failure "Transaction failed" (toString (repr e)), db, []⟩
    | .ok tx =>
      let db1 : DB :=
        { db with txs := db.txs ++ [tx], nextTxId := db.nextTxId + 1 }
      let payload := buildMoonpayPayload req user tx.id
      match proc with
      | .error err =>
          ⟨.failure "Transaction failed" err, db1,
            [.dbCreate tx, .procCreateCall payload]⟩
      | .ok resp =>
          let tx' := { tx with
            moonpayTransactionId := some resp.id
            status := some resp.status }
          ⟨.success tx' resp.redirectUrl,
            { db1 with txs := setTx db1.txs tx.id (fun s =>
                { s with
                    moonpayTransactionId := some resp.id
                    status := some resp.status }) },
            [.dbCreate tx, .procCreateCall payload, .dbUpdate tx.id]⟩

/-- GET /api/transactions/:id (src/unnamed/part_000 lines 261-291): 404 if
the row is absent; if `transaction.moonpayTransactionId` is truthy (in
JavaScript: non-null AND a non-empty string) GET the remote transaction and
merge its status and cryptoAmount into the row (500 if the call throws);
answer 200 with the row. -/
def fetchTransaction (i : Nat) (db : DB)
    (proc : Except String MoonpayFetchResp) : Outcome FetchResult :=
  match findTx db i with
  | none => ⟨.notFound "Transaction not found", db, []⟩
  | some tx =>
    match tx.moonpayTransactionId with
    | none => ⟨.success tx, db, []⟩
    | some e =>
      if e = "" then ⟨.success tx, db, []⟩
      else
        match proc with
        | .error _ =>
            ⟨.failure "Failed to fetch transaction", db, [.procFetchCall e]⟩
        | .ok r =>
            let tx' := { tx with
              status := some r.status
              cryptoAmount := some r.cryptoAmount }
            ⟨.success tx',
              { db with txs := setTx db.txs tx.id (fun s =>
                  { s with
                      status := some r.status
                      cryptoAmount := some r.cryptoAmount }) },
              [.procFetchCall e, .dbUpdate tx.id]⟩

/-- POST /api/webhook/moonpay (src/unnamed/part_000 lines 323-342): if the
body has no `data` object, reading `data.id` throws and the catch block
answers 500 'Error processing webhook'; otherwise look the row up by the
external id, merge status and cryptoAmount if found, and answer 200 'OK'
whether or not a row matched. -/
def webhookMoonpay (body : WebhookBody) (db : DB) : Outcome WebhookResult :=
  match body.data with
  | none => ⟨.error "Error processing webhook", db, []⟩
  | some d =>
    match findTxByExt db d.id with
    | none => ⟨.ok "OK", db, []⟩
    | some t =>
        ⟨.ok "OK",
          { db with txs := setTx db.txs t.id (fun s =>
              { s with
                  status := some d.status
                  cryptoAmount := some d.cryptoAmount }) },
          [.dbUpdate t.id]⟩

/-- One inbound request of any of the three kinds, with the processor
outcome a create or fetch would observe. -/
inductive Op where
  | create (req : CreateTxRequest) (proc : Except String MoonpayCreateResp)
  | fetch (i : Nat) (proc : Except String MoonpayFetchResp)
  | hook (body : WebhookBody)

/-- The database after handling one request. -/
def runOp : Op → DB → DB
  | .create req proc, db => (createTransaction req db proc).db
  | .fetch i proc, db => (fetchTransaction i db proc).db
  | .hook body, db => (webhookMoonpay body db).db

/-- The created row after the create handler merges a successful MoonPay
response into it (src/unnamed/part_000 lines 219-223). -/
def mergedTx (req : CreateTxRequest) (i : Nat) (resp : MoonpayCreateResp) :
    TxRecord :=
  { pendingTx req i with
      moonpayTransactionId := some resp.id
      status := some resp.status }

/-- The fields the spec calls immutable after creation: everything except
status and crypto amount, with the MoonPay id included since neither
reconciliation path writes it. -/
def immutableFieldsEq (r r' : TxRecord) : Prop :=
  r'.id = r.id ∧ r'.userId = r.userId ∧ r'.amount = r.amount ∧
  r'.currency = r.currency ∧ r'.cryptoCurrency = r.cryptoCurrency ∧
  r'.paymentMethod = r.paymentMethod ∧
  r'.moonpayTransactionId = r.moonpayTransactionId

theorem immutableFieldsEq_refl (r : TxRecord) : immutableFieldsEq r r := by
  simp [immutableFieldsEq]

theorem transactionCreate_eq (f : TxCreateFields) (i : Nat) :
    transactionCreate f i = Except.ok
      { id := i
        userId := f.userId
        amount := f.amount
        currency := f.currency
        cryptoAmount := f.cryptoAmount
        cryptoCurrency := f.cryptoCurrency
        status := f.status
        paymentMethod := f.paymentMethod
        moonpayTransactionId := f.moonpayTransactionId } := rfl

theorem mem_setTx_of_ne {txs : List TxRecord} {i : Nat}
    {f : TxRecord → TxRecord} {r : TxRecord} (hm : r ∈ txs)
    (h : r.id ≠ i) : r ∈ setTx txs i f := by
  unfold setTx
  have h2 := List.mem_map_of_mem (fun s => if s.id == i then f s else s) hm
  simpa [h] using h2

theorem of_mem_setTx {txs : List TxRecord} {i : Nat}
    {f : TxRecord → TxRecord} {r' : TxRecord} (h : r' ∈ setTx txs i f) :
    ∃ r ∈ txs, r' = if r.id == i then f r else r := by
  unfold setTx at h
  obtain ⟨r, hr, hEq⟩ := List.mem_map.mp h
  exact ⟨r, hr, hEq.symm⟩

theorem length_setTx (txs : List TxRecord) (i : Nat)
    (f : TxRecord → TxRecord) : (setTx txs i f).length = txs.length := by
  unfold setTx
  exact List.length_map txs _

theorem createTransaction_err_run (req : CreateTxRequest) (db : DB)
    (user : UserRec) (err : String)
    (h : findUser db req.userId = some user) :
    createTransaction req db (Except.error err) =
      ⟨CreateResult.failure "Transaction failed" err,
       { db with
           txs := db.txs ++ [pendingTx req db.nextTxId]
           nextTxId := db.nextTxId + 1 },
       [Event.dbCreate (pendingTx req db.nextTxId),
        Event.procCreateCall (buildMoonpayPayload req user db.nextTxId)]⟩ := by
  simp [createTransaction, h, transactionCreate_eq, createFieldsOf, pendingTx]

theorem createTransaction_ok_run (req : CreateTxRequest) (db : DB)
    (user : UserRec) (resp : MoonpayCreateResp)
    (h : findUser db req.userId = some user) :
    createTransaction req db (Except.ok resp) =
      ⟨CreateResult.success (mergedTx req db.nextTxId resp) resp.redirectUrl,
       { db with
           txs := setTx (db.txs ++ [pendingTx req db.nextTxId]) db.nextTxId
             (fun s => { s with
                 moonpayTransactionId := some resp.id
                 status := some resp.status })
           nextTxId := db.nextTxId + 1 },
       [Event.dbCreate (pendingTx req db.nextTxId),
        Event.procCreateCall (buildMoonpayPayload req user db.nextTxId),
        Event.dbUpdate db.nextTxId]⟩ := by
  simp [createTransaction, h, transactionCreate_eq, createFieldsOf, pendingTx,
    mergedTx]

theorem fetchTransaction_ext_err_run (i : Nat) (db : DB) (tx : TxRecord)
    (e : String) (err : String) (h1 : findTx db i = some tx)
    (h2 : tx.moonpayTransactionId = some e) (h3 : e ≠ "") :
    fetchTransaction i db (Except.error err) =
      ⟨FetchResult.failure "Failed to fetch transaction", db,
       [Event.procFetchCall e]⟩ := by
  simp [fetchTransaction, h1, h2, h3]

theorem fetchTransaction_ext_ok_run (i : Nat) (db : DB) (tx : TxRecord)
    (e : String) (r : MoonpayFetchResp) (h1 : findTx db i = some tx)
    (h2 : tx.moonpayTransactionId = some e) (h3 : e ≠ "") :
    fetchTransaction i db (Except.ok r) =
      ⟨FetchResult.success
         { tx with status := some r.status, cryptoAmount := some r.cryptoAmount },
       { db with txs := setTx db.txs tx.id (fun s =>
           { s with status := some r.status, cryptoAmount := some r.cryptoAmount }) },
       [Event.procFetchCall e, Event.dbUpdate tx.id]⟩ := by
  simp [fetchTransaction, h1, h2, h3]

theorem webhookMoonpay_found_run (db : DB) (d : WebhookData) (t : TxRecord)
    (h : findTxByExt db d.id = some t) :
    webhookMoonpay ⟨some d⟩ db =
      ⟨WebhookResult.ok "OK",
       { db with txs := setTx db.txs t.id (fun s =>
           { s with status := some d.status, cryptoAmount := some d.cryptoAmount }) },
       [Event.dbUpdate t.id]⟩ := by
  simp [webhookMoonpay, h]

theorem createTransaction_noUser_run (req : CreateTxRequest) (db : DB)
    (proc : Except String MoonpayCreateResp)
    (h : findUser db req.userId = none) :
    createTransaction req db proc =
      ⟨CreateResult.userNotFound "User not found", db, []⟩ := by
  simp [createTransaction, h]

theorem fetchTransaction_notFound_run (i : Nat) (db : DB)
    (proc : Except String MoonpayFetchResp) (h : findTx db i = none) :
    fetchTransaction i db proc =
      ⟨FetchResult.notFound "Transaction not found", db, []⟩ := by
  simp [fetchTransaction, h]

theorem fetchTransaction_noExt_run (i : Nat) (db : DB) (tx : TxRecord)
    (proc : Except String MoonpayFetchResp) (h1 : findTx db i = some tx)
    (h2 : tx.moonpayTransactionId = none) :
    fetchTransaction i db proc = ⟨FetchResult.success tx, db, []⟩ := by
  simp [fetchTransaction, h1, h2]

theorem fetchTransaction_emptyExt_run (i : Nat) (db : DB) (tx : TxRecord)
    (proc : Except String MoonpayFetchResp) (h1 : findTx db i = some tx)
    (h2 : tx.moonpayTransactionId = some "") :
    fetchTransaction i db proc = ⟨FetchResult.success tx, db, []⟩ := by
  simp [fetchTransaction, h1, h2]

theorem webhookMoonpay_noData_run (db : DB) :
    webhookMoonpay ⟨none⟩ db =
      ⟨WebhookResult.error "Error processing webhook", db, []⟩ := rfl

theorem webhookMoonpay_notFound_run (db : DB) (d : WebhookData)
    (h : findTxByExt db d.id = none) :
    webhookMoonpay ⟨some d⟩ db = ⟨WebhookResult.ok "OK", db, []⟩ := by
  simp [webhookMoonpay, h]

theorem buildMoonpayPayload_base (req : CreateTxRequest) (user : UserRec)
    (i : Nat) :
    (buildMoonpayPayload req user i).walletAddress = req.walletAddress ∧
    (buildMoonpayPayload req user i).currencyCode = req.cryptoCurrency ∧
    (buildMoonpayPayload req user i).baseCurrencyAmount = req.amount ∧
    (buildMoonpayPayload req user i).baseCurrencyCode = req.currency ∧
    (buildMoonpayPayload req user i).externalTransactionId = toString i ∧
    (buildMoonpayPayload req user i).customer =
      ⟨user.firstName, user.lastName, user.email, user.phone,
       toString user.id⟩ := by
  rcases hcd : req.cardDetails with _ | c
  · simp [buildMoonpayPayload, hcd]
  · by_cases hp : req.paymentMethod = "card_payment" <;>
      simp [buildMoonpayPayload, hcd, hp]

theorem buildMoonpayPayload_card (req : CreateTxRequest) (user : UserRec)
    (i : Nat) (c : CardDetails) (hp : req.paymentMethod = "card_payment")
    (hcd : req.cardDetails = some c) :
    (buildMoonpayPayload req user i).paymentMethod = "credit_debit_card" ∧
    (buildMoonpayPayload req user i).card =
      some ⟨c.cardNumber, c.expiryMonth, c.expiryYear, c.cvv,
        c.cardholderName⟩ := by
  simp [buildMoonpayPayload, hcd, hp]

theorem buildMoonpayPayload_mobile (req : CreateTxRequest) (user : UserRec)
    (i : Nat) (hm : req.paymentMethod = "mobile_money") :
    (buildMoonpayPayload req user i).paymentMethod = "mobile_money" ∧
    (buildMoonpayPayload req user i).card = none := by
  rcases hcd : req.cardDetails with _ | c <;>
    simp [buildMoonpayPayload, hcd, hm]

theorem frame_parts_of_id_post (op : Op) (db : DB)
    (hpost : (runOp op db).txs = db.txs) :
    (∀ r ∈ db.txs, ∃ r' ∈ (runOp op db).txs, immutableFieldsEq r r') ∧
    (∀ r' ∈ (runOp op db).txs, (∀ r ∈ db.txs, r'.id ≠ r.id) →
      r'.moonpayTransactionId = none ∨
      ∃ req resp, op = Op.create req (Except.ok resp) ∧
        r'.moonpayTransactionId = some resp.id) := by
  constructor
  · intro r hr
    exact ⟨r, by rw [hpost]; exact hr, immutableFieldsEq_refl r⟩
  · intro r' hr' hfresh
    rw [hpost] at hr'
    exact absurd rfl (hfresh r' hr')

theorem frame_parts_of_setTx (op : Op) (db : DB) (k : Nat)
    (g : TxRecord → TxRecord) (hg : ∀ s, immutableFieldsEq s (g s))
    (hpost : (runOp op db).txs = setTx db.txs k g) :
    (∀ r ∈ db.txs, ∃ r' ∈ (runOp op db).txs, immutableFieldsEq r r') ∧
    (∀ r' ∈ (runOp op db).txs, (∀ r ∈ db.txs, r'.id ≠ r.id) →
      r'.moonpayTransactionId = none ∨
      ∃ req resp, op = Op.create req (Except.ok resp) ∧
        r'.moonpayTransactionId = some resp.id) := by
  constructor
  · intro r hr
    rw [hpost]
    by_cases hc : (r.id == k) = true
    · refine ⟨g r, ?_, hg r⟩
      have hmem := List.mem_map_of_mem (fun s => if s.id == k then g s else s) hr
      simpa [setTx, hc] using hmem
    · exact ⟨r, mem_setTx_of_ne hr (by simpa using hc),
        immutableFieldsEq_refl r⟩
  · intro r' hr' hfresh
    rw [hpost] at hr'
    obtain ⟨s, hs, hEq⟩ := of_mem_setTx hr'
    have hid : r'.id = s.id := by
      by_cases hc : (s.id == k) = true
      · rw [hEq, if_pos hc]
        exact (hg s).1
      · rw [hEq, if_neg hc]
    exact absurd hid (hfresh s hs)

/-- A sample registered user, for concrete instantiations. -/
def aliceUser : UserRec :=
  { id := 1, firstName := "A", lastName := "B", email := "a@b.ke",
    phone := "0712", idNumber := "9" }

/-- A mobile-money create request for user 1. -/
def baseReq : CreateTxRequest :=
  { userId := 1, amount := 5000, currency := "KES", cryptoCurrency := "btc",
    paymentMethod := "mobile_money", cardDetails := none,
    walletAddress := "3FZ" }

/-- A card-payment create request for user 1 with card details supplied. -/
def cardReq : CreateTxRequest :=
  { baseReq with
      paymentMethod := "card_payment"
      cardDetails := some ⟨"4242", "12", "2025", "123", "JD"⟩ }

/-- A database holding just the sample user and no transactions. -/
def db0 : DB := { users := [aliceUser], txs := [], nextTxId := 1 }

/-- An empty database: no users, no transactions. -/
def noUserDb : DB := { users := [], txs := [], nextTxId := 1 }

/-- A row already accepted by MoonPay (external id m1) whose stored status
reads completed. -/
def completedTx : TxRecord :=
  { id := 1, userId := some 1, amount := some 5000, currency := some "KES",
    cryptoAmount := some 12, cryptoCurrency := some "btc",
    status := some "completed", paymentMethod := some "mobile_money",
    moonpayTransactionId := some "m1" }

/-- A database holding `completedTx` only. -/
def completedDb : DB := { users := [aliceUser], txs := [completedTx], nextTxId := 2 }

/-- C4: creating a transaction for a user id that matches no user answers
404 with error 'User not found', leaves the database unchanged — so no
local record is created — and performs no processor call. -/
theorem create_unknown_user_not_found (req : CreateTxRequest) (db : DB)
    (proc : Except String MoonpayCreateResp)
    (h : findUser db req.userId = none) :
    createTransaction req db proc =
      ⟨CreateResult.userNotFound "User not found", db, []⟩ :=
  createTransaction_noUser_run req db proc h

theorem create_unknown_user_not_found_witness :
    findUser noUserDb baseReq.userId = none ∧
    createTransaction baseReq noUserDb (Except.error "down") =
      ⟨CreateResult.userNotFound "User not found", noUserDb, []⟩ :=
  ⟨by decide,
   create_unknown_user_not_found baseReq noUserDb (Except.error "down")
     (by decide)⟩

/-- C5: a webhook whose data.id matches no row changes nothing in the
database (the payload is dropped) and still answers 200 'OK'. -/
theorem webhook_unknown_ext_noop_ok (db : DB) (d : WebhookData)
    (h : findTxByExt db d.id = none) :
    webhookMoonpay ⟨some d⟩ db = ⟨WebhookResult.ok "OK", db, []⟩ :=
  webhookMoonpay_notFound_run db d h

theorem webhook_unknown_ext_noop_ok_witness :
    findTxByExt completedDb "zz" = none ∧
    webhookMoonpay ⟨some ⟨"zz", "failed", 7⟩⟩ completedDb =
      ⟨WebhookResult.ok "OK", completedDb, []⟩ :=
  ⟨by decide,
   webhook_unknown_ext_noop_ok completedDb ⟨"zz", "failed", 7⟩ (by decide)⟩

/-- C10: a webhook body carrying no `data` object makes the handler's read
of `data.id` throw, so it answers 500 with plain text 'Error processing
webhook' and no row is touched. -/
theorem webhook_missing_data_errors (db : DB) :
    webhookMoonpay ⟨none⟩ db =
      ⟨WebhookResult.error "Error processing webhook", db, []⟩ := rfl

/-- Create-fields value with every field absent. -/
def noFieldsEx : TxCreateFields :=
  ⟨none, none, none, none, none, none, none, none⟩

/-- C9 counterexample: `Transaction.create` with every field absent — in
particular amount and currency — does not fail with a ValidationError: no
column of the model declares a not-null constraint or a validator, so a row
of NULLs is produced. -/
theorem transaction_create_missing_fields_cex :
    transactionCreate noFieldsEx 1 =
      Except.ok ⟨1, none, none, none, none, none, none, none, none⟩ := rfl

/-- C9 (amended): `Transaction.create` never fails with a ValidationError:
for any combination of present and absent fields it produces a row carrying
exactly the given values, NULL where a field was absent. -/
theorem transaction_create_never_validation_error
    (f : TxCreateFields) (newId : Nat) :
    ∃ r : TxRecord, transactionCreate f newId = Except.ok r ∧
      r.id = newId ∧ r.amount = f.amount ∧ r.currency = f.currency ∧
      r.userId = f.userId ∧ r.cryptoAmount = f.cryptoAmount ∧
      r.cryptoCurrency = f.cryptoCurrency ∧ r.status = f.status ∧
      r.paymentMethod = f.paymentMethod ∧
      r.moonpayTransactionId = f.moonpayTransactionId :=
  ⟨_, transactionCreate_eq f newId, rfl, rfl, rfl, rfl, rfl, rfl, rfl, rfl,
   rfl⟩

/-- A row whose MoonPay id is the empty string (non-null but falsy in
JavaScript) and whose stored status reads completed. -/
def emptyExtTx : TxRecord :=
  { id := 1, userId := some 1, amount := some 5000, currency := some "KES",
    cryptoAmount := none, cryptoCurrency := some "btc",
    status := some "completed", paymentMethod := some "mobile_money",
    moonpayTransactionId := some "" }

/-- A database holding `emptyExtTx` only. -/
def emptyExtDb : DB := { users := [], txs := [emptyExtTx], nextTxId := 2 }

/-- C3 counterexample: the fetch handler guards the lookup with the
JavaScript truthiness of `transaction.moonpayTransactionId`, so a row whose
external id is the non-null empty string gets no lookup call at all and no
overwrite — refuting "non-null id implies exactly one lookup call". -/
theorem fetch_empty_ext_skips_lookup_cex :
    emptyExtTx.moonpayTransactionId ≠ none ∧
    (fetchTransaction 1 emptyExtDb (Except.ok ⟨"failed", 5⟩)).events.countP
      Event.isProcFetch = 0 ∧
    fetchTransaction 1 emptyExtDb (Except.ok ⟨"failed", 5⟩) =
      ⟨FetchResult.success emptyExtTx, emptyExtDb, []⟩ :=
  ⟨by decide, by decide, by decide⟩

/-- C3 (amended): fetching a transaction whose external id is non-null and
non-empty (truthy in JavaScript) issues exactly one processor lookup call,
and whenever that call succeeds the row's status and cryptoAmount are
unconditionally overwritten with the response values — even when the stored
status already reads completed or failed. -/
theorem fetch_truthy_ext_reconciles (i : Nat) (db : DB) (tx : TxRecord)
    (e : String) (proc : Except String MoonpayFetchResp)
    (h1 : findTx db i = some tx) (h2 : tx.moonpayTransactionId = some e)
    (h3 : e ≠ "") :
    ((fetchTransaction i db proc).events.countP Event.isProcFetch = 1 ∧
      Event.procFetchCall e ∈ (fetchTransaction i db proc).events) ∧
    (∀ r : MoonpayFetchResp, proc = Except.ok r →
      (fetchTransaction i db proc).res = FetchResult.success
        { tx with status := some r.status,
                  cryptoAmount := some r.cryptoAmount } ∧
      (fetchTransaction i db proc).db.txs = setTx db.txs tx.id (fun s =>
        { s with status := some r.status,
                 cryptoAmount := some r.cryptoAmount })) := by
  cases proc with
  | error err =>
      rw [fetchTransaction_ext_err_run i db tx e err h1 h2 h3]
      refine ⟨⟨?_, ?_⟩, ?_⟩
      · simp [Event.isProcFetch]
      · simp
      · intro r hr
        exact Except.noConfusion hr
  | ok r =>
      rw [fetchTransaction_ext_ok_run i db tx e r h1 h2 h3]
      refine ⟨⟨?_, ?_⟩, ?_⟩
      · simp [Event.isProcFetch]
      · simp
      · intro r' hr'
        injection hr' with hrr
        subst hrr
        exact ⟨rfl, rfl⟩

/-- A successful lookup response reporting status failed, for concrete
instantiations. -/
def failedLookup : Except String MoonpayFetchResp :=
  Except.ok ⟨"failed", 7⟩

theorem fetch_truthy_ext_reconciles_witness :
    (findTx completedDb 1 = some completedTx ∧
     completedTx.moonpayTransactionId = some "m1" ∧ "m1" ≠ "") ∧
    (((fetchTransaction 1 completedDb failedLookup).events.countP
        Event.isProcFetch = 1 ∧
      Event.procFetchCall "m1" ∈
        (fetchTransaction 1 completedDb failedLookup).events) ∧
     (∀ r : MoonpayFetchResp, failedLookup = Except.ok r →
       (fetchTransaction 1 completedDb failedLookup).res =
         FetchResult.success
           { completedTx with status := some r.status,
                              cryptoAmount := some r.cryptoAmount } ∧
       (fetchTransaction 1 completedDb failedLookup).db.txs =
         setTx completedDb.txs completedTx.id (fun s =>
           { s with status := some r.status,
                    cryptoAmount := some r.cryptoAmount }))) :=
  ⟨⟨by decide, by decide, by decide⟩,
   by exact fetch_truthy_ext_reconciles 1 completedDb completedTx "m1"
        failedLookup (by decide) (by decide) (by decide)⟩

/-- C1: for a create request naming an existing user, a successful
processor call makes the handler answer with a record whose MoonPay id and
status are exactly the response's id and status; a failed processor call
makes the handler answer 500 while the table still ends with the record as
created — status pending, NULL MoonPay id — neither rolled back nor
further modified. -/
theorem create_merge_on_success_orphan_on_failure
    (req : CreateTxRequest) (db : DB) (user : UserRec)
    (h : findUser db req.userId = some user) :
    (∀ resp : MoonpayCreateResp,
        ∃ tx' : TxRecord,
          (createTransaction req db (Except.ok resp)).res =
            CreateResult.success tx' resp.redirectUrl ∧
          tx'.moonpayTransactionId = some resp.id ∧
          tx'.status = some resp.status) ∧
    (∀ err : String,
        (createTransaction req db (Except.error err)).res =
          CreateResult.failure "Transaction failed" err ∧
        ∃ tx : TxRecord,
          (createTransaction req db (Except.error err)).db.txs =
            db.txs ++ [tx] ∧
          tx.status = some "pending" ∧
          tx.moonpayTransactionId = none) := by
  constructor
  · intro resp
    rw [createTransaction_ok_run req db user resp h]
    exact ⟨mergedTx req db.nextTxId resp, rfl, rfl, rfl⟩
  · intro err
    rw [createTransaction_err_run req db user err h]
    exact ⟨rfl, pendingTx req db.nextTxId, rfl, rfl, rfl⟩

theorem create_merge_on_success_orphan_on_failure_witness :
    findUser db0 baseReq.userId = some aliceUser ∧
    ((∀ resp : MoonpayCreateResp,
        ∃ tx' : TxRecord,
          (createTransaction baseReq db0 (Except.ok resp)).res =
            CreateResult.success tx' resp.redirectUrl ∧
          tx'.moonpayTransactionId = some resp.id ∧
          tx'.status = some resp.status) ∧
     (∀ err : String,
        (createTransaction baseReq db0 (Except.error err)).res =
          CreateResult.failure "Transaction failed" err ∧
        ∃ tx : TxRecord,
          (createTransaction baseReq db0 (Except.error err)).db.txs =
            db0.txs ++ [tx] ∧
          tx.status = some "pending" ∧
          tx.moonpayTransactionId = none)) :=
  ⟨by decide,
   create_merge_on_success_orphan_on_failure baseReq db0 aliceUser
     (by decide)⟩

/-- C2: for a create request naming an existing user the handler's trace
starts with exactly one local insert — carrying status pending — followed
immediately by the processor call, with no further insert in the trace, and
the table gains exactly one row, whatever the processor outcome. -/
theorem create_inserts_pending_before_processor_call
    (req : CreateTxRequest) (db : DB) (user : UserRec)
    (proc : Except String MoonpayCreateResp)
    (h : findUser db req.userId = some user) :
    ∃ t p es,
      (createTransaction req db proc).events =
        Event.dbCreate t :: Event.procCreateCall p :: es ∧
      t.status = some "pending" ∧
      (∀ e ∈ es, e.isDbCreate = false) ∧
      (createTransaction req db proc).db.txs.length = db.txs.length + 1 := by
  cases proc with
  | error err =>
      rw [createTransaction_err_run req db user err h]
      exact ⟨pendingTx req db.nextTxId,
        buildMoonpayPayload req user db.nextTxId, [], rfl, rfl, by simp,
        by simp⟩
  | ok resp =>
      rw [createTransaction_ok_run req db user resp h]
      refine ⟨pendingTx req db.nextTxId,
        buildMoonpayPayload req user db.nextTxId,
        [Event.dbUpdate db.nextTxId], rfl, rfl, ?_, ?_⟩
      · intro e he
        simp at he
        subst he
        rfl
      · simp [length_setTx]

theorem create_inserts_pending_before_processor_call_witness :
    findUser db0 baseReq.userId = some aliceUser ∧
    (∃ t p es,
      (createTransaction baseReq db0 (Except.error "down")).events =
        Event.dbCreate t :: Event.procCreateCall p :: es ∧
      t.status = some "pending" ∧
      (∀ e ∈ es, e.isDbCreate = false) ∧
      (createTransaction baseReq db0 (Except.error "down")).db.txs.length =
        db0.txs.length + 1) :=
  ⟨by decide,
   create_inserts_pending_before_processor_call baseReq db0 aliceUser
     (Except.error "down") (by decide)⟩

/-- C8: the payload sent to the processor carries the purchaser's wallet
address, the crypto currency code, the fiat amount and currency, the
stringified local transaction id as the correlation key
(externalTransactionId), and the user's profile fields as the customer
object; when the payment method is card_payment with card details supplied
the card sub-object repeats the caller's card fields verbatim (and the
payment method is serialized as credit_debit_card), while for mobile_money
no card sub-object is included. -/
theorem moonpay_payload_contents (req : CreateTxRequest) (db : DB)
    (user : UserRec) (proc : Except String MoonpayCreateResp)
    (h : findUser db req.userId = some user) :
    ∃ p : MoonpayPayload,
      Event.procCreateCall p ∈ (createTransaction req db proc).events ∧
      p.walletAddress = req.walletAddress ∧
      p.currencyCode = req.cryptoCurrency ∧
      p.baseCurrencyAmount = req.amount ∧
      p.baseCurrencyCode = req.currency ∧
      p.externalTransactionId = toString db.nextTxId ∧
      p.customer = ⟨user.firstName, user.lastName, user.email, user.phone,
        toString user.id⟩ ∧
      (∀ c : CardDetails, req.paymentMethod = "card_payment" →
        req.cardDetails = some c →
        p.paymentMethod = "credit_debit_card" ∧
        p.card = some ⟨c.cardNumber, c.expiryMonth, c.expiryYear, c.cvv,
          c.cardholderName⟩) ∧
      (req.paymentMethod = "mobile_money" →
        p.paymentMethod = "mobile_money" ∧ p.card = none) := by
  obtain ⟨hw, hcc, hba, hbc, hext, hcust⟩ :=
    buildMoonpayPayload_base req user db.nextTxId
  refine ⟨buildMoonpayPayload req user db.nextTxId, ?_, hw, hcc, hba, hbc,
    hext, hcust, ?_, ?_⟩
  · cases proc with
    | error err =>
        rw [createTransaction_err_run req db user err h]
        simp
    | ok resp =>
        rw [createTransaction_ok_run req db user resp h]
        simp
  · intro c hp hcd
    exact buildMoonpayPayload_card req user db.nextTxId c hp hcd
  · intro hm
    exact buildMoonpayPayload_mobile req user db.nextTxId hm

theorem moonpay_payload_contents_witness :
    findUser db0 cardReq.userId = some aliceUser ∧
    (∃ p : MoonpayPayload,
      Event.procCreateCall p ∈
        (createTransaction cardReq db0 (Except.error "down")).events ∧
      p.walletAddress = cardReq.walletAddress ∧
      p.currencyCode = cardReq.cryptoCurrency ∧
      p.baseCurrencyAmount = cardReq.amount ∧
      p.baseCurrencyCode = cardReq.currency ∧
      p.externalTransactionId = toString db0.nextTxId ∧
      p.customer = ⟨aliceUser.firstName, aliceUser.lastName, aliceUser.email,
        aliceUser.phone, toString aliceUser.id⟩ ∧
      (∀ c : CardDetails, cardReq.paymentMethod = "card_payment" →
        cardReq.cardDetails = some c →
        p.paymentMethod = "credit_debit_card" ∧
        p.card = some ⟨c.cardNumber, c.expiryMonth, c.expiryYear, c.cvv,
          c.cardholderName⟩) ∧
      (cardReq.paymentMethod = "mobile_money" →
        p.paymentMethod = "mobile_money" ∧ p.card = none)) :=
  ⟨by decide,
   moonpay_payload_contents cardReq db0 aliceUser (Except.error "down")
     (by decide)⟩

/-- C6: a webhook whose data.id matches a row answers 200 'OK' and rewrites
the table so that precisely the matched row's status and cryptoAmount take
the payload's values: every row with a different id is kept verbatim, and
every resulting row agrees with a prior row on all fields other than status
and cryptoAmount. -/
theorem webhook_known_ext_updates_only_target (db : DB) (d : WebhookData)
    (t : TxRecord) (h : findTxByExt db d.id = some t) :
    webhookMoonpay ⟨some d⟩ db =
      ⟨WebhookResult.ok "OK",
       { db with txs := setTx db.txs t.id (fun s =>
           { s with status := some d.status,
                    cryptoAmount := some d.cryptoAmount }) },
       [Event.dbUpdate t.id]⟩ ∧
    (∀ r ∈ db.txs, r.id ≠ t.id → r ∈ (webhookMoonpay ⟨some d⟩ db).db.txs) ∧
    (∀ r' ∈ (webhookMoonpay ⟨some d⟩ db).db.txs, ∃ r ∈ db.txs,
        immutableFieldsEq r r') := by
  have hrun := webhookMoonpay_found_run db d t h
  refine ⟨hrun, ?_, ?_⟩
  · intro r hr hne
    rw [hrun]
    exact mem_setTx_of_ne hr hne
  · intro r' hr'
    rw [hrun] at hr'
    obtain ⟨r, hrm, hEq⟩ := of_mem_setTx hr'
    refine ⟨r, hrm, ?_⟩
    subst hEq
    by_cases hc : (r.id == t.id) = true
    · simp [hc, immutableFieldsEq]
    · simp [hc, immutableFieldsEq]

theorem webhook_known_ext_updates_only_target_witness :
    findTxByExt completedDb "m1" = some completedTx ∧
    (webhookMoonpay ⟨some ⟨"m1", "failed", 9⟩⟩ completedDb =
      ⟨WebhookResult.ok "OK",
       { completedDb with txs := setTx completedDb.txs completedTx.id (fun s =>
           { s with status := some (WebhookData.mk "m1" "failed" 9).status,
                    cryptoAmount :=
                      some (WebhookData.mk "m1" "failed" 9).cryptoAmount }) },
       [Event.dbUpdate completedTx.id]⟩ ∧
     (∀ r ∈ completedDb.txs, r.id ≠ completedTx.id →
        r ∈ (webhookMoonpay ⟨some ⟨"m1", "failed", 9⟩⟩ completedDb).db.txs) ∧
     (∀ r' ∈ (webhookMoonpay ⟨some ⟨"m1", "failed", 9⟩⟩ completedDb).db.txs,
        ∃ r ∈ completedDb.txs, immutableFieldsEq r r')) :=
  ⟨by decide,
   webhook_known_ext_updates_only_target completedDb ⟨"m1", "failed", 9⟩
     completedTx (by decide)⟩

/-- C7: provided every stored row's id differs from the auto-increment
counter, one request of any kind (create, fetch, webhook) leaves every
pre-existing row with its id, userId, amount, currency, cryptoCurrency,
paymentMethod and moonpayTransactionId unchanged — only status and
cryptoAmount are ever rewritten — and any row with a fresh id either has a
NULL MoonPay id or got it from the successful processor response of the
create request that made it, so the external id is assigned at most once
and only on successful processor acceptance. -/
theorem post_creation_field_immutability (op : Op) (db : DB)
    (hwf : ∀ t ∈ db.txs, t.id ≠ db.nextTxId) :
    (∀ r ∈ db.txs, ∃ r' ∈ (runOp op db).txs, immutableFieldsEq r r') ∧
    (∀ r' ∈ (runOp op db).txs, (∀ r ∈ db.txs, r'.id ≠ r.id) →
      r'.moonpayTransactionId = none ∨
      ∃ req resp, op = Op.create req (Except.ok resp) ∧
        r'.moonpayTransactionId = some resp.id) := by
  cases op with
  | create req proc =>
      cases hu : findUser db req.userId with
      | none =>
          exact frame_parts_of_id_post (Op.create req proc) db
            (by simp only [runOp]
                rw [createTransaction_noUser_run req db proc hu])
      | some user =>
          cases proc with
          | error err =>
              constructor
              · intro r hr
                refine ⟨r, ?_, immutableFieldsEq_refl r⟩
                simp only [runOp]
                rw [createTransaction_err_run req db user err hu]
                exact List.mem_append_left _ hr
              · intro r' hr' hfresh
                simp only [runOp] at hr'
                rw [createTransaction_err_run req db user err hu] at hr'
                rcases List.mem_append.mp hr' with hin | hin
                · exact absurd rfl (hfresh r' hin)
                · left
                  have hp : r' = pendingTx req db.nextTxId := by
                    simpa using hin
                  rw [hp]
                  rfl
          | ok resp =>
              constructor
              · intro r hr
                refine ⟨r, ?_, immutableFieldsEq_refl r⟩
                simp only [runOp]
                rw [createTransaction_ok_run req db user resp hu]
                exact mem_setTx_of_ne (List.mem_append_left _ hr) (hwf r hr)
              · intro r' hr' hfresh
                simp only [runOp] at hr'
                rw [createTransaction_ok_run req db user resp hu] at hr'
                obtain ⟨s, hs, hEq⟩ := of_mem_setTx hr'
                rcases List.mem_append.mp hs with hin | hin
                · have hcond : (s.id == db.nextTxId) = false := by
                    simp [hwf s hin]
                  rw [hcond] at hEq
                  simp at hEq
                  subst hEq
                  exact absurd rfl (hfresh r' hin)
                · have hsp : s = pendingTx req db.nextTxId := by
                    simpa using hin
                  subst hsp
                  have hcond :
                      ((pendingTx req db.nextTxId).id == db.nextTxId) =
                        true := by
                    simp [pendingTx]
                  rw [hcond] at hEq
                  simp at hEq
                  right
                  refine ⟨req, resp, rfl, ?_⟩
                  rw [hEq]
  | fetch i proc =>
      cases hf : findTx db i with
      | none =>
          exact frame_parts_of_id_post (Op.fetch i proc) db
            (by simp only [runOp]
                rw [fetchTransaction_notFound_run i db proc hf])
      | some tx =>
          cases hm : tx.moonpayTransactionId with
          | none =>
              exact frame_parts_of_id_post (Op.fetch i proc) db
                (by simp only [runOp]
                    rw [fetchTransaction_noExt_run i db tx proc hf hm])
          | some e =>
              by_cases he : e = ""
              · subst he
                exact frame_parts_of_id_post (Op.fetch i proc) db
                  (by simp only [runOp]
                      rw [fetchTransaction_emptyExt_run i db tx proc hf hm])
              · cases proc with
                | error err =>
                    exact frame_parts_of_id_post
                      (Op.fetch i (Except.error err)) db
                      (by simp only [runOp]
                          rw [fetchTransaction_ext_err_run i db tx e err hf
                            hm he])
                | ok r =>
                    exact frame_parts_of_setTx (Op.fetch i (Except.ok r)) db
                      tx.id
                      (fun s => { s with status := some r.status,
                                         cryptoAmount := some r.cryptoAmount })
                      (fun s => by simp [immutableFieldsEq])
                      (by simp only [runOp]
                          rw [fetchTransaction_ext_ok_run i db tx e r hf hm
                            he])
  | hook body =>
      obtain ⟨data⟩ := body
      cases data with
      | none =>
          exact frame_parts_of_id_post (Op.hook ⟨none⟩) db
            (by simp only [runOp]
                rw [webhookMoonpay_noData_run db])
      | some d =>
          cases hl : findTxByExt db d.id with
          | none =>
              exact frame_parts_of_id_post (Op.hook ⟨some d⟩) db
                (by simp only [runOp]
                    rw [webhookMoonpay_notFound_run db d hl])
          | some t =>
              exact frame_parts_of_setTx (Op.hook ⟨some d⟩) db t.id
                (fun s => { s with status := some d.status,
                                   cryptoAmount := some d.cryptoAmount })
                (fun s => by simp [immutableFieldsEq])
                (by simp only [runOp]
                    rw [webhookMoonpay_found_run db d t hl])

/-- The operation used to instantiate the immutability theorem: a create
request for user 1 that MoonPay accepts as m9 / waitingPayment. -/
def acceptedCreateOp : Op :=
  Op.create baseReq (Except.ok ⟨"m9", "waitingPayment", "https://p"⟩)

theorem post_creation_field_immutability_witness :
    (∀ t ∈ completedDb.txs, t.id ≠ completedDb.nextTxId) ∧
    ((∀ r ∈ completedDb.txs, ∃ r' ∈ (runOp acceptedCreateOp completedDb).txs,
        immutableFieldsEq r r') ∧
     (∀ r' ∈ (runOp acceptedCreateOp completedDb).txs,
        (∀ r ∈ completedDb.txs, r'.id ≠ r.id) →
        r'.moonpayTransactionId = none ∨
        ∃ req resp, acceptedCreateOp = Op.create req (Except.ok resp) ∧
          r'.moonpayTransactionId = some resp.id)) :=
  ⟨by decide, post_creation_field_immutability acceptedCreateOp completedDb
    (by decide)⟩

end MoonpayGateway
